import Mathlib

/-!
A verification development for the `gosolar` solar-position and
solar-irradiance library.

The Go source (`gosolar.go`) is shallowly embedded below: `float64`
values become real numbers, `int` values become `ℤ`, and the functions
`LSTM`, `EoT`, `TimezoneFor`, `TCF`, `LST`, `HRA`, `Declination`,
`Elevation`, `Zenith`, `Azimuth`, `AM`, `ID`, `IG`, `ModulePower`,
`SunTime`, `Sunrise`, `Sunset` and `PeakSolarHours` are translated
statement by statement.  Go's `math.Acos` returns NaN outside `[-1,1]`;
the real-valued embedding uses Mathlib's total `Real.arccos`, so the
theorems that depend on the arccosine stay inside its `[-1,1]` domain,
and a separate `Option`-valued embedding (`SunriseF`, `SunsetF`,
`SunTimeF`) models the NaN-producing branch explicitly (`none` = NaN).
-/

namespace GoSolar

open Real Finset

noncomputable section

/-- Embeds the `Location` struct: `Lat`, `Lon` in degrees, `Alt` in
kilometres, plus the descriptive labels (unused by the computations). -/
structure Location where
  Lat : ℝ
  Lon : ℝ
  Alt : ℝ
  City : String
  State : String

/-- Embeds `const DegToRad = math.Pi / 180.0`. -/
def DegToRad : ℝ := Real.pi / 180.0

/-- Embeds `const RadToDeg = 180.0 / math.Pi`. -/
def RadToDeg : ℝ := 180.0 / Real.pi

/-- Embeds `const Circle = DegToRad * 360.0`. -/
def Circle : ℝ := DegToRad * 360.0

/-- Embeds `const DaysPerYear = 365.0`. -/
def DaysPerYear : ℝ := 365.0

/-- Embeds `func LSTM(timezone float64) float64`. -/
def LSTM (timezone : ℝ) : ℝ := DegToRad * 15.0 * timezone

/-- Embeds `func EoT(day int) float64`: the equation of time, in minutes. -/
def EoT (day : ℤ) : ℝ :=
  let b := (Circle / DaysPerYear) * ((day : ℝ) - 81.0)
  (9.87 * Real.sin (2 * b)) - (7.53 * Real.cos b) - (1.5 * Real.sin b)

/-- Embeds `func TimezoneFor(loc Location) float64`: longitude/15 after folding
longitudes above 180 degrees. -/
def TimezoneFor (loc : Location) : ℝ :=
  let lon := if loc.Lon > 180.0 then -(loc.Lon - 180.0) else loc.Lon
  lon / 15.0

/-- Embeds `func TCF(day int, loc Location) float64`: the time correction factor. -/
def TCF (day : ℤ) (loc : Location) : ℝ :=
  4 * (DegToRad * loc.Lon - LSTM (TimezoneFor loc)) + EoT day

/-- Embeds `func LST(localTime int, day int, loc Location) float64`: note the
source adds `TCF(day, loc)/60.0`, not the raw minutes value. -/
def LST (localTime : ℤ) (day : ℤ) (loc : Location) : ℝ :=
  (localTime : ℝ) + TCF day loc / 60.0

/-- Embeds `func HRA(localTime int, day int, loc Location) float64`: hour angle
in radians. -/
def HRA (localTime : ℤ) (day : ℤ) (loc : Location) : ℝ :=
  DegToRad * 0.25 * (LST localTime day loc - 720)

/-- Embeds `func Declination(day int) float64`. -/
def Declination (day : ℤ) : ℝ :=
  DegToRad * 23.45 * Real.sin ((Circle / DaysPerYear) * ((day : ℝ) - 81.0))

/-- Embeds `func Elevation(localTime int, day int, loc Location) float64`. -/
def Elevation (localTime : ℤ) (day : ℤ) (loc : Location) : ℝ :=
  Real.arcsin (Real.sin (Declination day) * Real.sin (DegToRad * loc.Lat) +
    Real.cos (Declination day) * Real.cos (DegToRad * loc.Lat) *
      Real.cos (HRA localTime day loc))

/-- Embeds `func Zenith(localTime int, day int, loc Location) float64`. -/
def Zenith (localTime : ℤ) (day : ℤ) (loc : Location) : ℝ :=
  DegToRad * 90.0 - Elevation localTime day loc

/-- Embeds `func Azimuth(localTime int, day int, loc Location) float64`: the
source divides by `sin(zenith)` with no degenerate-zenith guard, takes
`acos`, and reflects the result after solar noon (the trailing
`return theta` in the source is unreachable). -/
def Azimuth (localTime : ℤ) (day : ℤ) (loc : Location) : ℝ :=
  let dec := Declination day
  let lat := loc.Lat * DegToRad
  let hourAngle := HRA localTime day loc
  let zenith := Zenith localTime day loc
  let cosTheta := (Real.sin dec * Real.cos lat -
    Real.cos hourAngle * Real.cos dec * Real.sin lat) / Real.sin zenith
  let theta := Real.arccos cosTheta
  if LST localTime day loc < 720 then theta else DegToRad * 360 - theta

/-- Embeds `func AM(localTime int, day int, loc Location) float64`: the air-mass
formula as written in the source, with `x` in radians and both the
coefficient `0.50572` and the exponent `-1.6364` multiplied by
`DegToRad`. -/
def AM (localTime : ℤ) (day : ℤ) (loc : Location) : ℝ :=
  let theta := Zenith localTime day loc
  let x := DegToRad * 96.07995 - theta
  if x < 0.0 then 0
  else 1.0 / (Real.cos theta + DegToRad * 0.50572 * x ^ (DegToRad * (-1.6364)))

/-- Embeds `func ID(localTime int, day int, loc Location) float64`: direct
intensity in kW/m². -/
def ID (localTime : ℤ) (day : ℤ) (loc : Location) : ℝ :=
  let am := AM localTime day loc
  if am ≤ 0.0 then 0.0
  else
    1.353 * ((1.0 - 0.14 * loc.Alt) * (0.7 : ℝ) ^ (am ^ (0.678 : ℝ)) +
      0.14 * loc.Alt)

/-- Embeds `func IG(localTime int, day int, loc Location) float64`. -/
def IG (localTime : ℤ) (day : ℤ) (loc : Location) : ℝ :=
  1.1 * ID localTime day loc

/-- Embeds `func ModulePower(localTime int, day int, loc Location) float64`:
the source divides by `sin(elevation)` with no guard.  Real division in
Lean is total (`x / 0 = 0`), so the singular case is analysed through
the numerator and denominator separately rather than through this
quotient. -/
def ModulePower (localTime : ℤ) (day : ℤ) (loc : Location) : ℝ :=
  let e := Elevation localTime day loc
  let id := IG localTime day loc
  let sHoriz := id * Real.sin (e + DegToRad * loc.Lat)
  sHoriz / Real.sin e

/-- Embeds `func Sunrise(day int, loc Location) float64`, with Go's
`math.Acos` rendered as the (clamped) `Real.arccos`; meaningful for
arguments in `[-1,1]`. -/
def Sunrise (day : ℤ) (loc : Location) : ℝ :=
  let a := 1.0 / 0.25 * DegToRad
  let dec := Declination day
  let lat := loc.Lat * DegToRad
  let b := (-Real.sin lat * Real.sin dec) / (Real.cos lat * Real.cos dec)
  (12 - a * Real.arccos b * RadToDeg) * 60

/-- Embeds `func Sunset(day int, loc Location) float64`, as for `Sunrise`. -/
def Sunset (day : ℤ) (loc : Location) : ℝ :=
  let a := 1.0 / 0.25 * DegToRad
  let dec := Declination day
  let lat := loc.Lat * DegToRad
  let b := (-Real.sin lat * Real.sin dec) / (Real.cos lat * Real.cos dec)
  (12 + a * Real.arccos b * RadToDeg) * 60

/-- Embeds `func SunTime(day int, loc Location) float64`. -/
def SunTime (day : ℤ) (loc : Location) : ℝ :=
  Sunset day loc - Sunrise day loc

/-- Go's `int(x)` conversion for a `float64`: truncation toward zero. -/
def goInt (x : ℝ) : ℤ := if 0 ≤ x then ⌊x⌋ else ⌈x⌉

/-- Embeds `func PeakSolarHours(day int, loc Location) (sum float64)`: the loop
`for i := sr; i < int(Sunset(day, loc)); i++ { sum += IG(sr+i, day, loc) }`
sums `IG` at the sample times `sr + i` — the sunrise offset is added a
second time inside the loop body, exactly as in the source. -/
def PeakSolarHours (day : ℤ) (loc : Location) : ℝ :=
  let sr := goInt (Sunrise day loc)
  (∑ i ∈ Finset.Ico sr (goInt (Sunset day loc)), IG (sr + i) day loc) / 60

/-- Go float semantics for `math.Acos`: NaN (here `none`) outside
`[-1,1]`.  NaN propagates through every later arithmetic operation of
`Sunrise`, which `Option.map` reproduces. -/
def acosNaN (x : ℝ) : Option ℝ :=
  if x < -1 ∨ 1 < x then none else some (Real.arccos x)

/-- Embeds `Sunrise` under Go float semantics: NaN (`none`) when the arccosine
argument falls outside `[-1,1]`. -/
def SunriseF (day : ℤ) (loc : Location) : Option ℝ :=
  let a := 1.0 / 0.25 * DegToRad
  let dec := Declination day
  let lat := loc.Lat * DegToRad
  let b := (-Real.sin lat * Real.sin dec) / (Real.cos lat * Real.cos dec)
  (acosNaN b).map (fun v => (12 - a * v * RadToDeg) * 60)

/-- Embeds `Sunset` under Go float semantics, as for `SunriseF`. -/
def SunsetF (day : ℤ) (loc : Location) : Option ℝ :=
  let a := 1.0 / 0.25 * DegToRad
  let dec := Declination day
  let lat := loc.Lat * DegToRad
  let b := (-Real.sin lat * Real.sin dec) / (Real.cos lat * Real.cos dec)
  (acosNaN b).map (fun v => (12 + a * v * RadToDeg) * 60)

/-- Embeds `SunTime` under Go float semantics: `Sunset - Sunrise`, NaN if
either operand is NaN. -/
def SunTimeF (day : ℤ) (loc : Location) : Option ℝ :=
  match SunsetF day loc, SunriseF day loc with
  | some x, some y => some (x - y)
  | _, _ => none

/-- Modelled from the spec: the Kasten–Young air-mass fit with `x` and
the exponent base in degrees — `airMass = 1/(cos(zenith) +
0.50572·x^(−1.6364))`, `x = 96.07995° − zenith` in degrees, the
coefficient and exponent applied as-is (spec §4.4). -/
def AMspec (localTime : ℤ) (day : ℤ) (loc : Location) : ℝ :=
  let theta := Zenith localTime day loc
  let xdeg := 96.07995 - theta * RadToDeg
  if xdeg < 0.0 then 0
  else 1.0 / (Real.cos theta + 0.50572 * xdeg ^ ((-1.6364 : ℝ)))

/-- Modelled from the spec: the canonical `peakSolarHours` summation
window of §4.5 — anchored at the integer-truncated sunrise, stepping
exactly `sunset − sunrise` one-minute steps with no extra offset added
to the sample times, then divided by 60. -/
def PeakSolarHoursSpec (day : ℤ) (loc : Location) : ℝ :=
  let sr := goInt (Sunrise day loc)
  (∑ i ∈ Finset.Ico sr (goInt (Sunset day loc)), IG i day loc) / 60

/-- A family of equatorial Greenwich locations of altitude `a`. -/
def locA (a : ℝ) : Location := ⟨0, 0, a, "", ""⟩

/-- The north pole at Greenwich longitude, sea level. -/
def loc90 : Location := ⟨90, 0, 0, "", ""⟩

/-- Latitude 89°N, Greenwich longitude, sea level. -/
def loc89 : Location := ⟨89, 0, 0, "", ""⟩

/-- An equatorial location whose (out-of-convention) longitude makes the
time-correction factor exactly 60 minutes on day 81. -/
def loc8 : Location := ⟨0, 90 + 1519.425 / Real.pi, 0, "", ""⟩

end

/-! ### Basic facts about the constants -/

lemma degToRad_pos : 0 < DegToRad := by
  unfold DegToRad
  positivity

lemma degToRad_90 : DegToRad * 90.0 = Real.pi / 2 := by
  unfold DegToRad
  ring

lemma circle_div_daysPerYear : Circle / DaysPerYear = 2 * Real.pi / 365 := by
  unfold Circle DaysPerYear DegToRad
  ring

/-! ### Trigonometric helper lemmas -/

lemma arcsin_cos_eq (x : ℝ) (h : |x| ≤ Real.pi) :
    Real.arcsin (Real.cos x) = Real.pi / 2 - |x| := by
  have h0 : (0 : ℝ) ≤ |x| := abs_nonneg x
  rw [← Real.cos_abs, ← Real.sin_pi_div_two_sub]
  exact Real.arcsin_sin (by linarith) (by linarith)

/-! ### Exact values on day 81 at the equatorial Greenwich locations -/

lemma declination_81 : Declination 81 = 0 := by
  unfold Declination
  norm_num

lemma eot_81 : EoT 81 = -7.53 := by
  unfold EoT
  norm_num

lemma tcf_81_locA (a : ℝ) : TCF 81 (locA a) = -7.53 := by
  unfold TCF locA LSTM TimezoneFor
  simp only []
  rw [eot_81]
  norm_num

lemma lst_81_locA (a : ℝ) (t : ℤ) :
    LST t 81 (locA a) = (t : ℝ) - 0.1255 := by
  unfold LST
  rw [tcf_81_locA]
  norm_num
  ring

lemma hra_81_locA (a : ℝ) (t : ℤ) :
    HRA t 81 (locA a) = Real.pi / 720 * ((t : ℝ) - 720.1255) := by
  unfold HRA
  rw [lst_81_locA]
  unfold DegToRad
  ring

lemma elevation_81_locA (a : ℝ) (t : ℤ) :
    Elevation t 81 (locA a) = Real.arcsin (Real.cos (HRA t 81 (locA a))) := by
  unfold Elevation
  rw [declination_81]
  simp [locA]

lemma zenith_81_locA (a : ℝ) (t : ℤ) (h1 : (1 : ℤ) ≤ t) (h2 : t ≤ 1440) :
    Zenith t 81 (locA a) = Real.pi / 720 * |(t : ℝ) - 720.1255| := by
  have hpi1 : 3.141592 < Real.pi := Real.pi_gt_d6
  have hpi2 : Real.pi < 3.141593 := Real.pi_lt_d6
  have ht1 : (1 : ℝ) ≤ (t : ℝ) := by exact_mod_cast h1
  have ht2 : (t : ℝ) ≤ 1440 := by exact_mod_cast h2
  have habs : |Real.pi / 720 * ((t : ℝ) - 720.1255)| =
      Real.pi / 720 * |(t : ℝ) - 720.1255| := by
    rw [abs_mul, abs_of_nonneg (by positivity : (0:ℝ) ≤ Real.pi / 720)]
  have hbound : |(t : ℝ) - 720.1255| ≤ 720 := by
    rw [abs_le]
    constructor <;> linarith
  unfold Zenith
  rw [elevation_81_locA, hra_81_locA, arcsin_cos_eq, degToRad_90, habs]
  · ring
  · rw [habs]
    calc Real.pi / 720 * |(t : ℝ) - 720.1255| ≤ Real.pi / 720 * 720 := by
          apply mul_le_mul_of_nonneg_left hbound (by positivity)
      _ = Real.pi := by ring

/-! ### Branch and bound lemmas for the irradiance chain -/

lemma AM_eq_zero_of_zenith_gt (t d : ℤ) (loc : Location)
    (h : DegToRad * 96.07995 < Zenith t d loc) : AM t d loc = 0 := by
  simp only [AM]
  rw [if_pos (by linarith : DegToRad * 96.07995 - Zenith t d loc < 0.0)]

lemma AM_of_x_nonneg (t d : ℤ) (loc : Location)
    (h : 0 ≤ DegToRad * 96.07995 - Zenith t d loc) :
    AM t d loc = 1.0 / (Real.cos (Zenith t d loc) + DegToRad * 0.50572 *
      (DegToRad * 96.07995 - Zenith t d loc) ^ (DegToRad * (-1.6364))) := by
  simp only [AM]
  rw [if_neg (by linarith : ¬ DegToRad * 96.07995 - Zenith t d loc < 0.0)]

lemma ID_eq_zero_of_am_nonpos (t d : ℤ) (loc : Location)
    (h : AM t d loc ≤ 0) : ID t d loc = 0 := by
  simp only [ID]
  rw [if_pos (by linarith : AM t d loc ≤ 0.0)]
  norm_num

lemma ID_of_am_pos (t d : ℤ) (loc : Location) (h : 0 < AM t d loc) :
    ID t d loc = 1.353 * ((1.0 - 0.14 * loc.Alt) *
      (0.7 : ℝ) ^ (AM t d loc ^ (0.678 : ℝ)) + 0.14 * loc.Alt) := by
  simp only [ID]
  rw [if_neg (by linarith : ¬ AM t d loc ≤ 0.0)]

lemma IG_eq_zero_of_zenith_gt (t d : ℤ) (loc : Location)
    (h : DegToRad * 96.07995 < Zenith t d loc) : IG t d loc = 0 := by
  unfold IG
  rw [ID_eq_zero_of_am_nonpos t d loc (le_of_eq (AM_eq_zero_of_zenith_gt t d loc h))]
  ring

lemma ID_nonneg (t d : ℤ) (loc : Location) (h : 0 ≤ loc.Alt) :
    0 ≤ ID t d loc := by
  simp only [ID]
  split
  · norm_num
  · rename_i ham
    push_neg at ham
    have hp0 : 0 < (0.7 : ℝ) ^ (AM t d loc ^ (0.678 : ℝ)) :=
      Real.rpow_pos_of_pos (by norm_num) _
    have hp1 : (0.7 : ℝ) ^ (AM t d loc ^ (0.678 : ℝ)) ≤ 1 :=
      Real.rpow_le_one (by norm_num) (by norm_num)
        (Real.rpow_nonneg (by linarith : (0:ℝ) ≤ AM t d loc) _)
    nlinarith [mul_nonneg h (sub_nonneg.mpr hp1)]

lemma IG_nonneg (t d : ℤ) (loc : Location) (h : 0 ≤ loc.Alt) :
    0 ≤ IG t d loc := by
  unfold IG
  nlinarith [ID_nonneg t d loc h]

lemma ID_le (t d : ℤ) (loc : Location) (h : 0 ≤ loc.Alt) :
    ID t d loc ≤ 1.353 * (1 + 0.14 * loc.Alt) := by
  simp only [ID]
  split
  · nlinarith
  · rename_i ham
    push_neg at ham
    have hp0 : 0 < (0.7 : ℝ) ^ (AM t d loc ^ (0.678 : ℝ)) :=
      Real.rpow_pos_of_pos (by norm_num) _
    have hp1 : (0.7 : ℝ) ^ (AM t d loc ^ (0.678 : ℝ)) ≤ 1 :=
      Real.rpow_le_one (by norm_num) (by norm_num)
        (Real.rpow_nonneg (by linarith : (0:ℝ) ≤ AM t d loc) _)
    nlinarith [mul_nonneg h hp0.le]

lemma IG_le (t d : ℤ) (loc : Location) (h : 0 ≤ loc.Alt) :
    IG t d loc ≤ 1.1 * (1.353 * (1 + 0.14 * loc.Alt)) := by
  unfold IG
  nlinarith [ID_le t d loc h]

/-! ### Claims C10, C4, C9 -/

/-- Claim C10: for every longitude in (−180, 180] the normalisation
branch of `TimezoneFor` is not taken, `LSTM(TimezoneFor(loc))` equals
`DegToRad·loc.Lon`, and the longitude term of `TCF` cancels, so `TCF`
reduces to the equation of time alone and two locations differing only
in longitude yield identical `TCF`, `LST` and `HRA` values. -/
theorem tcf_eq_eot (day t : ℤ) (loc loc' : Location)
    (h1 : -180 < loc.Lon) (h2 : loc.Lon ≤ 180)
    (h1' : -180 < loc'.Lon) (h2' : loc'.Lon ≤ 180) :
    TCF day loc = EoT day ∧ TCF day loc' = EoT day ∧
    LST t day loc = LST t day loc' ∧ HRA t day loc = HRA t day loc' := by
  have key : ∀ l : Location, l.Lon ≤ 180 → TCF day l = EoT day := by
    intro l hl2
    simp only [TCF, LSTM, TimezoneFor]
    rw [if_neg (by linarith : ¬ l.Lon > 180.0)]
    ring
  have k1 := key loc h2
  have k2 := key loc' h2'
  refine ⟨k1, k2, ?_, ?_⟩
  · unfold LST
    rw [k1, k2]
  · unfold HRA LST
    rw [k1, k2]

/-- Witness for C10 at day 0, localTime 0, with longitudes 0 and 90. -/
theorem tcf_eq_eot_witness :
    ((-180 : ℝ) < (locA 0).Lon ∧ (locA 0).Lon ≤ 180 ∧
      (-180 : ℝ) < (Location.mk 0 90 0 "" "").Lon ∧
      (Location.mk 0 90 0 "" "").Lon ≤ 180) ∧
    TCF 0 (locA 0) = EoT 0 ∧ TCF 0 (Location.mk 0 90 0 "" "") = EoT 0 ∧
    LST 0 0 (locA 0) = LST 0 0 (Location.mk 0 90 0 "" "") ∧
    HRA 0 0 (locA 0) = HRA 0 0 (Location.mk 0 90 0 "" "") := by
  have h := tcf_eq_eot 0 0 (locA 0) (Location.mk 0 90 0 "" "")
    (by norm_num [locA]) (by norm_num [locA]) (by norm_num) (by norm_num)
  exact ⟨⟨by norm_num [locA], by norm_num [locA], by norm_num, by norm_num⟩,
    h.1, h.2.1, h.2.2.1, h.2.2.2⟩

/-- Claim C4 (the code violates it): at localTime 0, day 81, the
equatorial Greenwich location, `LST` as implemented adds `TCF/60`
(giving −7.53/60) and thus differs from `localTime + TCF` (−7.53), the
raw-minutes contract the claim states. -/
theorem lst_rescale_bug :
    LST 0 81 (locA 0) ≠ ((0 : ℤ) : ℝ) + TCF 81 (locA 0) := by
  rw [lst_81_locA, tcf_81_locA]
  norm_num

/-- Claim C9: whenever the zenith angle exceeds the 96.07995° guard
threshold (equivalently `x = DegToRad·96.07995 − zenith < 0`), `AM`
returns exactly 0, and `ID` and `IG` return exactly 0 as well. -/
theorem airMass_below_horizon_zero (t d : ℤ) (loc : Location)
    (h : DegToRad * 96.07995 < Zenith t d loc) :
    AM t d loc = 0 ∧ ID t d loc = 0 ∧ IG t d loc = 0 :=
  ⟨AM_eq_zero_of_zenith_gt t d loc h,
   ID_eq_zero_of_am_nonpos t d loc (le_of_eq (AM_eq_zero_of_zenith_gt t d loc h)),
   IG_eq_zero_of_zenith_gt t d loc h⟩

/-- Witness for C9 at localTime 100, day 81, the equatorial Greenwich
location, where the zenith is π·620.1255/720 ≈ 155° > 96.07995°. -/
theorem airMass_below_horizon_zero_witness :
    DegToRad * 96.07995 < Zenith 100 81 (locA 0) ∧
    AM 100 81 (locA 0) = 0 ∧ ID 100 81 (locA 0) = 0 ∧
    IG 100 81 (locA 0) = 0 := by
  have hz : DegToRad * 96.07995 < Zenith 100 81 (locA 0) := by
    rw [zenith_81_locA 0 100 (by norm_num) (by norm_num)]
    have habs : |((100 : ℤ) : ℝ) - 720.1255| = 620.1255 := by
      rw [abs_of_nonpos (by norm_num)]
      norm_num
    rw [habs]
    unfold DegToRad
    have hpi := Real.pi_pos
    nlinarith
  exact ⟨hz, airMass_below_horizon_zero 100 81 (locA 0) hz⟩

/-! ### Claim C3: sunrise/sunset conversion factor -/

lemma sunrise_81_locA (a : ℝ) : Sunrise 81 (locA a) = 720 - 120 * Real.pi := by
  have hπ := Real.pi_ne_zero
  simp only [Sunrise, locA, zero_mul, Real.sin_zero, neg_zero, zero_div,
    Real.arccos_zero]
  unfold DegToRad RadToDeg
  field_simp
  ring

lemma sunset_81_locA (a : ℝ) : Sunset 81 (locA a) = 720 + 120 * Real.pi := by
  have hπ := Real.pi_ne_zero
  simp only [Sunset, locA, zero_mul, Real.sin_zero, neg_zero, zero_div,
    Real.arccos_zero]
  unfold DegToRad RadToDeg
  field_simp
  ring

lemma goInt_sunrise_81_locA (a : ℝ) : goInt (Sunrise 81 (locA a)) = 343 := by
  have hpi1 : 3.141592 < Real.pi := Real.pi_gt_d6
  have hpi2 : Real.pi < 3.141593 := Real.pi_lt_d6
  rw [sunrise_81_locA]
  unfold goInt
  rw [if_pos (by linarith : (0 : ℝ) ≤ 720 - 120 * Real.pi)]
  rw [Int.floor_eq_iff]
  constructor
  · push_cast
    linarith
  · push_cast
    linarith

lemma goInt_sunset_81_locA (a : ℝ) : goInt (Sunset 81 (locA a)) = 1096 := by
  have hpi1 : 3.141592 < Real.pi := Real.pi_gt_d6
  have hpi2 : Real.pi < 3.141593 := Real.pi_lt_d6
  rw [sunset_81_locA]
  unfold goInt
  rw [if_pos (by linarith : (0 : ℝ) ≤ 720 + 120 * Real.pi)]
  rw [Int.floor_eq_iff]
  constructor
  · push_cast
    linarith
  · push_cast
    linarith

/-- Claim C3 is false on the code: at day 81 and the equatorial
Greenwich location the claimed conversion (4 minutes per degree of the
horizon hour angle) gives `720 − 4·degrees(arccos 0) = 360` minutes,
but `Sunrise` returns `720 − 120π ≈ 343.0` — the source multiplies the
radian hour angle by `4·DegToRad` hours and so converts at 240 minutes
per radian instead. -/
theorem sunrise_four_min_per_degree_cex :
    ¬ (Sunrise 81 (locA 0) =
        720 - 4 * (Real.arccos (-Real.tan ((locA 0).Lat * DegToRad) *
          Real.tan (Declination 81)) * RadToDeg) ∧
       Sunset 81 (locA 0) =
        720 + 4 * (Real.arccos (-Real.tan ((locA 0).Lat * DegToRad) *
          Real.tan (Declination 81)) * RadToDeg)) := by
  have hπ := Real.pi_ne_zero
  have hpi1 : 3.141592 < Real.pi := Real.pi_gt_d6
  intro h
  have h1 := h.1
  rw [sunrise_81_locA] at h1
  simp only [locA, zero_mul, Real.tan_zero, neg_zero, Real.arccos_zero] at h1
  unfold RadToDeg at h1
  have h90 : Real.pi / 2 * (180.0 / Real.pi) = 90 := by
    field_simp
    ring
  rw [h90] at h1
  linarith

/-- Claim C3 amended: for every day and location with nondegenerate
cosines and arccosine argument in [−1,1], `Sunrise` returns
`720 − 240·arccos(−tan(lat)·tan(dec))` and `Sunset` returns
`720 + 240·arccos(−tan(lat)·tan(dec))` minutes — i.e. the radian hour
angle at the horizon is converted at 240 minutes per radian (the
source's `4·DegToRad`-hours factor), not 4 minutes per degree. -/
theorem sunrise_sunset_radian_form (day : ℤ) (loc : Location)
    (hlat : Real.cos (loc.Lat * DegToRad) ≠ 0)
    (hdec : Real.cos (Declination day) ≠ 0)
    (hb1 : -1 ≤ -Real.tan (loc.Lat * DegToRad) * Real.tan (Declination day))
    (hb2 : -Real.tan (loc.Lat * DegToRad) * Real.tan (Declination day) ≤ 1) :
    Sunrise day loc =
      720 - 240 * Real.arccos (-Real.tan (loc.Lat * DegToRad) *
        Real.tan (Declination day)) ∧
    Sunset day loc =
      720 + 240 * Real.arccos (-Real.tan (loc.Lat * DegToRad) *
        Real.tan (Declination day)) := by
  have hπ := Real.pi_ne_zero
  have hb : (-Real.sin (loc.Lat * DegToRad) * Real.sin (Declination day)) /
      (Real.cos (loc.Lat * DegToRad) * Real.cos (Declination day)) =
      -Real.tan (loc.Lat * DegToRad) * Real.tan (Declination day) := by
    rw [Real.tan_eq_sin_div_cos, Real.tan_eq_sin_div_cos]
    field_simp
  constructor
  · simp only [Sunrise]
    rw [hb]
    unfold DegToRad RadToDeg
    field_simp
    ring
  · simp only [Sunset]
    rw [hb]
    unfold DegToRad RadToDeg
    field_simp
    ring

/-- Witness for the amended C3 at day 81, equatorial Greenwich. -/
theorem sunrise_sunset_radian_form_witness :
    (Real.cos ((locA 0).Lat * DegToRad) ≠ 0 ∧
     Real.cos (Declination 81) ≠ 0 ∧
     -1 ≤ -Real.tan ((locA 0).Lat * DegToRad) * Real.tan (Declination 81) ∧
     -Real.tan ((locA 0).Lat * DegToRad) * Real.tan (Declination 81) ≤ 1) ∧
    Sunrise 81 (locA 0) =
      720 - 240 * Real.arccos (-Real.tan ((locA 0).Lat * DegToRad) *
        Real.tan (Declination 81)) := by
  have hlat : Real.cos ((locA 0).Lat * DegToRad) ≠ 0 := by
    simp [locA]
  have hdec : Real.cos (Declination 81) ≠ 0 := by
    rw [declination_81]
    simp
  have hb1 : -1 ≤ -Real.tan ((locA 0).Lat * DegToRad) *
      Real.tan (Declination 81) := by
    simp [locA]
  have hb2 : -Real.tan ((locA 0).Lat * DegToRad) *
      Real.tan (Declination 81) ≤ 1 := by
    simp [locA]
  exact ⟨⟨hlat, hdec, hb1, hb2⟩,
    (sunrise_sunset_radian_form 81 (locA 0) hlat hdec hb1 hb2).1⟩

/-! ### Claim C5: polar conditions produce NaN, not an error -/

lemma polar_b_89_172 :
    (-Real.sin (loc89.Lat * DegToRad) * Real.sin (Declination 172)) /
      (Real.cos (loc89.Lat * DegToRad) * Real.cos (Declination 172)) < -1 := by
  have hpi := Real.pi_pos
  have harg : (Circle / DaysPerYear) * (((172 : ℤ) : ℝ) - 81.0) =
      182 * Real.pi / 365 := by
    unfold Circle DaysPerYear DegToRad
    push_cast
    ring
  have hD : Declination 172 = DegToRad * 23.45 * Real.sin (182 * Real.pi / 365) := by
    unfold Declination
    rw [harg]
  have hs2 : Real.sin (182 * Real.pi / 365) ≤ 1 := Real.sin_le_one _
  have hs1 : 1 / 2 ≤ Real.sin (182 * Real.pi / 365) := by
    rw [← Real.sin_pi_div_six]
    apply Real.strictMonoOn_sin.monotoneOn
    · constructor <;> [linarith; linarith]
    · constructor <;> [linarith; linarith]
    · linarith
  have key : ∀ s : ℝ, 1 / 2 ≤ s → s ≤ 1 →
      (-Real.sin (89 * DegToRad) * Real.sin (DegToRad * 23.45 * s)) /
        (Real.cos (89 * DegToRad) * Real.cos (DegToRad * 23.45 * s)) < -1 := by
    intro s h1 h2
    have hL : (89 : ℝ) * DegToRad = 89 * Real.pi / 180 := by
      unfold DegToRad
      ring
    have hDval : DegToRad * 23.45 * s = Real.pi * (23.45 * s) / 180 := by
      unfold DegToRad
      ring
    rw [hL, hDval]
    have hπs1 : Real.pi * (1 / 2) ≤ Real.pi * s :=
      mul_le_mul_of_nonneg_left h1 hpi.le
    have hπs2 : Real.pi * s ≤ Real.pi * 1 :=
      mul_le_mul_of_nonneg_left h2 hpi.le
    have hcosL : 0 < Real.cos (89 * Real.pi / 180) :=
      Real.cos_pos_of_mem_Ioo ⟨by linarith, by linarith⟩
    have hcosD : 0 < Real.cos (Real.pi * (23.45 * s) / 180) :=
      Real.cos_pos_of_mem_Ioo ⟨by nlinarith, by nlinarith⟩
    have hcos_add : Real.cos (89 * Real.pi / 180 + Real.pi * (23.45 * s) / 180) < 0 := by
      apply Real.cos_neg_of_pi_div_two_lt_of_lt
      · nlinarith
      · nlinarith
    have hadd := Real.cos_add (89 * Real.pi / 180) (Real.pi * (23.45 * s) / 180)
    rw [div_lt_iff (mul_pos hcosL hcosD)]
    nlinarith
  have hlat : loc89.Lat * DegToRad = 89 * DegToRad := by
    simp [loc89]
  rw [hlat, hD]
  exact key _ hs1 hs2

/-- Claim C5 (the code does not satisfy it): in a polar condition the
arccosine argument is below −1, Go's `math.Acos` yields NaN, and
`Sunrise`, `Sunset` and `SunTime` return NaN (modelled `none`) — the
`float64` return type has no error channel, so no error condition is
signaled to the caller. -/
theorem sunrise_polar_nan :
    SunriseF 172 loc89 = none ∧ SunsetF 172 loc89 = none ∧
    SunTimeF 172 loc89 = none := by
  have hb := polar_b_89_172
  have h1 : SunriseF 172 loc89 = none := by
    simp only [SunriseF, acosNaN]
    rw [if_pos (Or.inl hb)]
    rfl
  have h2 : SunsetF 172 loc89 = none := by
    simp only [SunsetF, acosNaN]
    rw [if_pos (Or.inl hb)]
    rfl
  refine ⟨h1, h2, ?_⟩
  simp [SunTimeF, h1, h2]

/-! ### Claim C7: ModulePower at elevation exactly 0 -/

lemma elevation_720_81_loc90 : Elevation 720 81 loc90 = 0 := by
  unfold Elevation
  rw [declination_81]
  have h1 : DegToRad * loc90.Lat = Real.pi / 2 := by
    simp only [loc90]
    unfold DegToRad
    ring
  rw [h1]
  simp

lemma zenith_720_81_loc90 : Zenith 720 81 loc90 = Real.pi / 2 := by
  unfold Zenith
  rw [elevation_720_81_loc90, degToRad_90]
  ring

lemma am_pos_720_81_loc90 : 0 < AM 720 81 loc90 := by
  have hpi1 : 3.141592 < Real.pi := Real.pi_gt_d6
  have hxpos : 0 < DegToRad * 96.07995 - Zenith 720 81 loc90 := by
    rw [zenith_720_81_loc90]
    unfold DegToRad
    nlinarith
  rw [AM_of_x_nonneg _ _ _ hxpos.le, zenith_720_81_loc90, Real.cos_pi_div_two]
  have hc : 0 < DegToRad * 0.50572 := by
    have := degToRad_pos
    nlinarith
  have hterm : 0 < DegToRad * 0.50572 *
      (DegToRad * 96.07995 - Zenith 720 81 loc90) ^ (DegToRad * (-1.6364)) :=
    mul_pos hc (Real.rpow_pos_of_pos hxpos _)
  rw [zenith_720_81_loc90] at hterm
  positivity

/-- Claim C7 (the code does not satisfy it): at noon on day 81 at the
north pole the elevation is exactly 0, so the `ModulePower` denominator
`sin(elevation)` is exactly 0 while the numerator
`IG·sin(elevation + DegToRad·lat)` is strictly positive.  Go therefore
evaluates `positive / 0.0 = +Inf`, not the 0 the claim requires (the
real-valued embedding yields 0 for this quotient only as an artifact of
Lean's total division). -/
theorem modulePower_singular_bug :
    Elevation 720 81 loc90 = 0 ∧
    Real.sin (Elevation 720 81 loc90) = 0 ∧
    0 < IG 720 81 loc90 *
      Real.sin (Elevation 720 81 loc90 + DegToRad * loc90.Lat) := by
  have he := elevation_720_81_loc90
  refine ⟨he, by rw [he]; exact Real.sin_zero, ?_⟩
  rw [he]
  have h1 : DegToRad * loc90.Lat = Real.pi / 2 := by
    simp only [loc90]
    unfold DegToRad
    ring
  rw [zero_add, h1, Real.sin_pi_div_two, mul_one]
  unfold IG
  have ham := am_pos_720_81_loc90
  rw [ID_of_am_pos _ _ _ ham]
  have hp : 0 < (0.7 : ℝ) ^ (AM 720 81 loc90 ^ (0.678 : ℝ)) :=
    Real.rpow_pos_of_pos (by norm_num) _
  have hAlt : loc90.Alt = 0 := rfl
  rw [hAlt]
  nlinarith

/-! ### Claim C8: Azimuth at zenith exactly 0 -/

lemma tcf_81_loc8 : TCF 81 loc8 = 60 := by
  have hpi := Real.pi_pos
  have hπ := Real.pi_ne_zero
  have hpi2 : Real.pi < 3.141593 := Real.pi_lt_d6
  have hgt : loc8.Lon > 180.0 := by
    simp only [loc8]
    have h90 : (90 : ℝ) < 1519.425 / Real.pi := by
      rw [lt_div_iff hpi]
      nlinarith
    norm_num
    linarith
  simp only [TCF, LSTM, TimezoneFor]
  rw [if_pos hgt, eot_81]
  simp only [loc8]
  unfold DegToRad
  field_simp
  ring

lemma lst_719_81_loc8 : LST 719 81 loc8 = 720 := by
  unfold LST
  rw [tcf_81_loc8]
  norm_num

lemma hra_719_81_loc8 : HRA 719 81 loc8 = 0 := by
  unfold HRA
  rw [lst_719_81_loc8]
  norm_num

lemma zenith_719_81_loc8 : Zenith 719 81 loc8 = 0 := by
  unfold Zenith Elevation
  rw [declination_81, hra_719_81_loc8]
  have h1 : DegToRad * loc8.Lat = 0 := by
    simp only [loc8]
    ring
  rw [h1]
  simp [Real.arcsin_one, degToRad_90]

/-- Claim C8 (the code does not satisfy it): at the concrete input the
zenith is exactly 0, yet `Azimuth` does not return 0 — there is no
degenerate-zenith guard; the division `0/sin(0)` is `0/0` (NaN in Go,
0 under Lean's total division), `arccos` of it is π/2, and the
afternoon branch returns `2π − π/2 = 3π/2 ≠ 0`. -/
theorem azimuth_degenerate_bug :
    Zenith 719 81 loc8 = 0 ∧ Azimuth 719 81 loc8 ≠ 0 := by
  have hpi := Real.pi_pos
  refine ⟨zenith_719_81_loc8, ?_⟩
  have hlat : loc8.Lat * DegToRad = 0 := by
    simp only [loc8]
    ring
  have heval : Azimuth 719 81 loc8 = DegToRad * 360 - Real.pi / 2 := by
    simp only [Azimuth]
    rw [declination_81, hlat, zenith_719_81_loc8]
    simp only [Real.sin_zero, Real.cos_zero, zero_mul, mul_zero, sub_zero,
      zero_sub, neg_zero, zero_div, Real.arccos_zero]
    rw [if_neg (by rw [lst_719_81_loc8]; exact lt_irrefl 720)]
  rw [heval]
  unfold DegToRad
  intro hcontra
  nlinarith

/-! ### Claim C2: the air-mass unit-scaling bug -/

lemma zenith_720_81_locA (a : ℝ) :
    Zenith 720 81 (locA a) = Real.pi * 0.1255 / 720 := by
  rw [zenith_81_locA a 720 (by norm_num) (by norm_num)]
  have habs : |((720 : ℤ) : ℝ) - 720.1255| = 0.1255 := by
    rw [abs_of_nonpos (by norm_num)]
    norm_num
  rw [habs]
  ring

set_option maxHeartbeats 1600000 in
/-- Two-sided bound on the code's air mass at solar noon of day 81 over
the equatorial Greenwich locations: because the source scales both the
coefficient and the exponent by `DegToRad` and feeds `x` in radians,
the correction term is ≈ 0.0087 instead of ≈ 0.00054, giving
`AM ≈ 0.9914` instead of ≈ 0.9998. -/
lemma am_720_81_locA (a : ℝ) :
    0.991 ≤ AM 720 81 (locA a) ∧ AM 720 81 (locA a) ≤ 0.9915 := by
  have hpi1 : 3.141592 < Real.pi := Real.pi_gt_d6
  have hpi2 : Real.pi < 3.141593 := Real.pi_lt_d6
  have hz := zenith_720_81_locA a
  have hx_eq : DegToRad * 96.07995 - Real.pi * 0.1255 / 720 =
      Real.pi * 384.1943 / 720 := by
    unfold DegToRad
    ring
  have hx_nonneg : 0 ≤ DegToRad * 96.07995 - Zenith 720 81 (locA a) := by
    rw [hz, hx_eq]
    positivity
  have hX0 : (0 : ℝ) < Real.pi * 384.1943 / 720 := by positivity
  have hX1 : (1 : ℝ) ≤ Real.pi * 384.1943 / 720 := by nlinarith
  have hX2 : Real.pi * 384.1943 / 720 ≤ 2 := by nlinarith
  have he2 : DegToRad * (-1.6364) ≤ 0 := by
    unfold DegToRad
    nlinarith
  have he1 : (-0.02857 : ℝ) ≤ DegToRad * (-1.6364) := by
    unfold DegToRad
    nlinarith
  have hc1 : (0.0088264 : ℝ) ≤ DegToRad * 0.50572 := by
    unfold DegToRad
    nlinarith
  have hc2 : DegToRad * 0.50572 ≤ 0.0088266 := by
    unfold DegToRad
    nlinarith
  have hxe_hi : (Real.pi * 384.1943 / 720) ^ (DegToRad * (-1.6364)) ≤ 1 :=
    Real.rpow_le_one_of_one_le_of_nonpos hX1 he2
  have hxe_nonneg : 0 ≤ (Real.pi * 384.1943 / 720) ^ (DegToRad * (-1.6364)) :=
    Real.rpow_nonneg hX0.le _
  have hxe_lo : (0.9801 : ℝ) ≤ (Real.pi * 384.1943 / 720) ^ (DegToRad * (-1.6364)) := by
    rw [Real.rpow_def_of_pos hX0]
    have hlog2 : Real.log (Real.pi * 384.1943 / 720) ≤ 0.6931471808 :=
      le_trans (Real.log_le_log hX0 hX2) Real.log_two_lt_d9.le
    have hlog0 : 0 ≤ Real.log (Real.pi * 384.1943 / 720) := Real.log_nonneg hX1
    have hexp := Real.add_one_le_exp
      (Real.log (Real.pi * 384.1943 / 720) * (DegToRad * (-1.6364)))
    nlinarith [mul_le_mul_of_nonpos_right hlog2 he2]
  have hθ2 : Real.pi * 0.1255 / 720 ≤ 0.000548 := by nlinarith
  have hθ1 : (0 : ℝ) ≤ Real.pi * 0.1255 / 720 := by positivity
  have hcos_lo : (0.999999 : ℝ) ≤ Real.cos (Real.pi * 0.1255 / 720) := by
    have hb := Real.one_sub_sq_div_two_le_cos (x := Real.pi * 0.1255 / 720)
    nlinarith [mul_le_mul hθ2 hθ2 hθ1 (by norm_num : (0:ℝ) ≤ 0.000548)]
  have hcos_hi : Real.cos (Real.pi * 0.1255 / 720) ≤ 1 := Real.cos_le_one _
  have hterm_lo : (0.00865 : ℝ) ≤ DegToRad * 0.50572 *
      (Real.pi * 384.1943 / 720) ^ (DegToRad * (-1.6364)) := by
    nlinarith [mul_le_mul hc1 hxe_lo (by norm_num : (0:ℝ) ≤ 0.9801)
      (le_trans (by norm_num) hc1)]
  have hterm_hi : DegToRad * 0.50572 *
      (Real.pi * 384.1943 / 720) ^ (DegToRad * (-1.6364)) ≤ 0.0088266 := by
    nlinarith [mul_le_mul hc2 hxe_hi hxe_nonneg (by norm_num : (0:ℝ) ≤ 0.0088266)]
  rw [AM_of_x_nonneg _ _ _ hx_nonneg, hz, hx_eq]
  have hd_lo : (1.00864 : ℝ) ≤ Real.cos (Real.pi * 0.1255 / 720) +
      DegToRad * 0.50572 * (Real.pi * 384.1943 / 720) ^ (DegToRad * (-1.6364)) := by
    linarith
  have hd_hi : Real.cos (Real.pi * 0.1255 / 720) +
      DegToRad * 0.50572 * (Real.pi * 384.1943 / 720) ^ (DegToRad * (-1.6364)) ≤
      1.0088266 := by
    linarith
  constructor
  · rw [le_div_iff (by linarith)]
    nlinarith
  · rw [div_le_iff (by linarith)]
    nlinarith

set_option maxHeartbeats 1600000 in
/-- The spec's air-mass formula at the same input is at least 0.9994:
`x` in degrees is 96.048575 exactly, and `0.50572·96.048575^(−1.6364)`
is below 0.000544. -/
lemma amspec_720_81_locA_lo : (0.9994 : ℝ) ≤ AMspec 720 81 (locA 0) := by
  have hπ := Real.pi_ne_zero
  have hz := zenith_720_81_locA 0
  have hxdeg : 96.07995 - Zenith 720 81 (locA 0) * RadToDeg = 96.048575 := by
    rw [hz]
    unfold RadToDeg
    field_simp
    ring
  simp only [AMspec]
  rw [hxdeg, if_neg (by norm_num : ¬ (96.048575 : ℝ) < 0.0), hz]
  have hpow_hi : ((96.048575 : ℝ)) ^ ((-1.6364 : ℝ)) ≤ 1 / 939 := by
    have h1 : ((96 : ℝ)) ^ ((1.5 : ℝ)) ≤ (96.048575 : ℝ) ^ ((1.6364 : ℝ)) :=
      le_trans
        (Real.rpow_le_rpow_of_exponent_le (by norm_num) (by norm_num))
        (Real.rpow_le_rpow (by norm_num) (by norm_num) (by norm_num))
    have h5 : ((96 : ℝ) ^ ((1.5 : ℝ))) ^ (2 : ℕ) = 884736 := by
      rw [← Real.rpow_natCast ((96 : ℝ) ^ ((1.5 : ℝ))) 2,
        ← Real.rpow_mul (by norm_num : (0:ℝ) ≤ 96)]
      norm_num
    have hnn : (0 : ℝ) ≤ (96 : ℝ) ^ ((1.5 : ℝ)) := Real.rpow_nonneg (by norm_num) _
    have h2 : (939 : ℝ) ≤ (96 : ℝ) ^ ((1.5 : ℝ)) := by nlinarith
    have h3 : (939 : ℝ) ≤ (96.048575 : ℝ) ^ ((1.6364 : ℝ)) := by linarith
    have h4 : ((96.048575 : ℝ)) ^ ((-1.6364 : ℝ)) =
        ((96.048575 : ℝ) ^ ((1.6364 : ℝ)))⁻¹ := by
      rw [show ((-1.6364 : ℝ)) = -(1.6364 : ℝ) by norm_num,
        Real.rpow_neg (by norm_num)]
    rw [h4]
    calc ((96.048575 : ℝ) ^ ((1.6364 : ℝ)))⁻¹ ≤ (939 : ℝ)⁻¹ :=
          inv_le_inv_of_le (by norm_num) h3
      _ = 1 / 939 := by norm_num
  have hpi1 : 3.141592 < Real.pi := Real.pi_gt_d6
  have hpi2 : Real.pi < 3.141593 := Real.pi_lt_d6
  have hθ2 : Real.pi * 0.1255 / 720 ≤ 0.000548 := by nlinarith
  have hθ1 : (0 : ℝ) ≤ Real.pi * 0.1255 / 720 := by positivity
  have hcos_lo : (0.999999 : ℝ) ≤ Real.cos (Real.pi * 0.1255 / 720) := by
    have hb := Real.one_sub_sq_div_two_le_cos (x := Real.pi * 0.1255 / 720)
    nlinarith [mul_le_mul hθ2 hθ2 hθ1 (by norm_num : (0:ℝ) ≤ 0.000548)]
  have hcos_hi : Real.cos (Real.pi * 0.1255 / 720) ≤ 1 := Real.cos_le_one _
  have hterm_nonneg : (0 : ℝ) ≤ 0.50572 * (96.048575 : ℝ) ^ ((-1.6364 : ℝ)) := by
    positivity
  have hterm_hi : (0.50572 : ℝ) * (96.048575 : ℝ) ^ ((-1.6364 : ℝ)) ≤ 0.000544 := by
    nlinarith
  rw [le_div_iff (by linarith)]
  nlinarith

/-- Claim C2 (the code does not satisfy it): at noon of day 81 at the
equatorial Greenwich location the guard value is nonnegative, yet the
code's `AM` (which scales the coefficient and the exponent by
`DegToRad` and feeds `x` in radians) is at most 0.9915 while the
claimed formula (coefficient 0.50572 and exponent −1.6364 applied
as-is to `x` in degrees) evaluates to at least 0.9994. -/
theorem airMass_unit_scaling_bug :
    AM 720 81 (locA 0) < AMspec 720 81 (locA 0) := by
  have h1 := (am_720_81_locA 0).2
  have h2 := amspec_720_81_locA_lo
  linarith

/-! ### Claim C6: the range of PeakSolarHours -/

lemma goInt_gt (x : ℝ) : x - 1 < (goInt x : ℝ) := by
  unfold goInt
  split
  · exact Int.sub_one_lt_floor x
  · have h := Int.le_ceil x
    linarith

lemma goInt_le_of_nonneg (x : ℝ) (h : 0 ≤ x) : (goInt x : ℝ) ≤ x := by
  unfold goInt
  rw [if_pos h]
  exact Int.floor_le x

lemma sunrise_eq_arccos (day : ℤ) (loc : Location) :
    Sunrise day loc = 720 - 240 * Real.arccos
      ((-Real.sin (loc.Lat * DegToRad) * Real.sin (Declination day)) /
        (Real.cos (loc.Lat * DegToRad) * Real.cos (Declination day))) := by
  have hπ := Real.pi_ne_zero
  simp only [Sunrise]
  unfold RadToDeg DegToRad
  field_simp
  ring

lemma sunset_eq_arccos (day : ℤ) (loc : Location) :
    Sunset day loc = 720 + 240 * Real.arccos
      ((-Real.sin (loc.Lat * DegToRad) * Real.sin (Declination day)) /
        (Real.cos (loc.Lat * DegToRad) * Real.cos (Declination day))) := by
  have hπ := Real.pi_ne_zero
  simp only [Sunset]
  unfold RadToDeg DegToRad
  field_simp
  ring

lemma sum_Ico_split (f : ℤ → ℝ) {a b c : ℤ} (hab : a ≤ b) (hbc : b ≤ c) :
    ∑ i ∈ Finset.Ico a c, f i =
      (∑ i ∈ Finset.Ico a b, f i) + ∑ i ∈ Finset.Ico b c, f i := by
  rw [← Finset.Ico_union_Ico_eq_Ico hab hbc,
    Finset.sum_union (Finset.Ico_disjoint_Ico_consecutive a b c)]

set_option maxHeartbeats 800000 in
/-- At 10^6 km altitude the single noon sample of day 81 is enormous:
the altitude term `0.14·alt` enters `ID` linearly and `p ≤ 0.8`. -/
lemma ig_720_81_alt : (41000 : ℝ) ≤ IG 720 81 (locA 1000000) := by
  have ham := am_720_81_locA 1000000
  have ham_pos : 0 < AM 720 81 (locA 1000000) := by linarith [ham.1]
  have hY : (3 / 4 : ℝ) ≤ AM 720 81 (locA 1000000) ^ ((0.678 : ℝ)) := by
    have h1 : ((0.991 : ℝ)) ^ ((0.678 : ℝ)) ≤
        AM 720 81 (locA 1000000) ^ ((0.678 : ℝ)) :=
      Real.rpow_le_rpow (by norm_num) ham.1 (by norm_num)
    have h2 : ((0.991 : ℝ)) ^ ((1 : ℝ)) ≤ ((0.991 : ℝ)) ^ ((0.678 : ℝ)) :=
      Real.rpow_le_rpow_of_exponent_ge (by norm_num) (by norm_num) (by norm_num)
    rw [Real.rpow_one] at h2
    linarith
  have hp_hi : (0.7 : ℝ) ^ (AM 720 81 (locA 1000000) ^ ((0.678 : ℝ))) ≤ 0.8 := by
    have h1 : (0.7 : ℝ) ^ (AM 720 81 (locA 1000000) ^ ((0.678 : ℝ))) ≤
        (0.7 : ℝ) ^ ((3 / 4 : ℝ)) :=
      Real.rpow_le_rpow_of_exponent_ge (by norm_num) (by norm_num) hY
    have h5 : ((0.7 : ℝ) ^ ((3 / 4 : ℝ))) ^ (4 : ℕ) = (0.7 : ℝ) ^ (3 : ℕ) := by
      rw [← Real.rpow_natCast ((0.7 : ℝ) ^ ((3 / 4 : ℝ))) 4,
        ← Real.rpow_mul (by norm_num : (0:ℝ) ≤ 0.7)]
      norm_num
    have h2 : (0.7 : ℝ) ^ ((3 / 4 : ℝ)) ≤ 0.8 := by
      apply le_of_pow_le_pow_left (by norm_num : (4 : ℕ) ≠ 0)
        (by norm_num : (0:ℝ) ≤ 0.8)
      rw [h5]
      norm_num
    linarith
  have hp_pos : 0 < (0.7 : ℝ) ^ (AM 720 81 (locA 1000000) ^ ((0.678 : ℝ))) :=
    Real.rpow_pos_of_pos (by norm_num) _
  unfold IG
  rw [ID_of_am_pos _ _ _ ham_pos]
  have hAlt : (locA (1000000 : ℝ)).Alt = 1000000 := rfl
  rw [hAlt]
  nlinarith

/-- Claim C6 is false on the code: the claim allows any altitude ≥ 0,
but at altitude 10^6 km (day 81, equatorial Greenwich) a single noon
sample contributes more than 41000/60 > 24 peak solar hours, and every
other sample is nonnegative. -/
theorem peakSolarHours_alt_cex : 24 < PeakSolarHours 81 (locA 1000000) := by
  have halt : (0 : ℝ) ≤ (locA (1000000 : ℝ)).Alt := by norm_num [locA]
  simp only [PeakSolarHours]
  rw [goInt_sunrise_81_locA, goInt_sunset_81_locA]
  have h377 : (377 : ℤ) ∈ Finset.Ico (343 : ℤ) 1096 :=
    Finset.mem_Ico.mpr ⟨by norm_num, by norm_num⟩
  have hsingle : IG 720 81 (locA 1000000) ≤
      ∑ i ∈ Finset.Ico (343 : ℤ) 1096, IG (343 + i) 81 (locA 1000000) := by
    have h := Finset.single_le_sum
      (f := fun i => IG (343 + i) 81 (locA 1000000))
      (fun i _ => IG_nonneg (343 + i) 81 (locA 1000000) halt) h377
    norm_num at h
    exact h
  have hbig := ig_720_81_alt
  rw [lt_div_iff (by norm_num : (0:ℝ) < 60)]
  linarith

/-- PeakSolarHours is bounded by `(480π+1)·K/60` whenever every sample
value of `IG` is in `[0, K]` and sunrise/sunset take their arccosine
form with hour angle `A ∈ [0, π]`. -/
lemma psh_bounds_aux (day : ℤ) (loc : Location) (A K : ℝ)
    (hA1 : 0 ≤ A) (hA2 : A ≤ Real.pi)
    (hsr_eq : Sunrise day loc = 720 - 240 * A)
    (hss_eq : Sunset day loc = 720 + 240 * A)
    (hK : 0 ≤ K)
    (hptw : ∀ t : ℤ, IG t day loc ≤ K)
    (hnn : ∀ t : ℤ, 0 ≤ IG t day loc) :
    0 ≤ PeakSolarHours day loc ∧
      PeakSolarHours day loc ≤ (480 * Real.pi + 1) * K / 60 := by
  have hpi := Real.pi_pos
  simp only [PeakSolarHours]
  set sr := goInt (Sunrise day loc) with hsr_def
  set ss := goInt (Sunset day loc) with hss_def
  have hsr_lo : (720 : ℝ) - 240 * A - 1 < (sr : ℝ) := by
    rw [hsr_def, ← hsr_eq]
    exact goInt_gt (Sunrise day loc)
  have hss_hi : (ss : ℝ) ≤ 720 + 240 * A := by
    rw [hss_def, ← hss_eq]
    exact goInt_le_of_nonneg (Sunset day loc) (by rw [hss_eq]; nlinarith)
  constructor
  · apply div_nonneg _ (by norm_num)
    exact Finset.sum_nonneg (fun i _ => hnn _)
  · have hsum_le := Finset.sum_le_card_nsmul (Finset.Ico sr ss)
      (fun i => IG (sr + i) day loc) K (fun i _ => hptw _)
    rw [nsmul_eq_mul] at hsum_le
    have hcard : ((Finset.Ico sr ss).card : ℝ) ≤ 480 * A + 1 := by
      rw [Int.card_Ico]
      rcases le_or_lt ss sr with h | h
      · rw [Int.toNat_of_nonpos (by omega)]
        push_cast
        nlinarith
      · have hnn2 : (0 : ℤ) ≤ ss - sr := by omega
        have h2 := Int.toNat_of_nonneg hnn2
        have h3 := congrArg (fun z : ℤ => (z : ℝ)) h2
        push_cast at h3
        rw [h3]
        linarith
    have hfin : (∑ i ∈ Finset.Ico sr ss, IG (sr + i) day loc) ≤
        (480 * A + 1) * K :=
      le_trans hsum_le (mul_le_mul_of_nonneg_right hcard hK)
    have hAK : (480 * A + 1) * K ≤ (480 * Real.pi + 1) * K := by
      apply mul_le_mul_of_nonneg_right _ hK
      linarith
    have := le_trans hfin hAK
    linarith

set_option maxHeartbeats 800000 in
/-- Claim C6 amended: for every day in [0,365), latitude in [−90,90],
longitude in [−180,180], altitude ≥ 0, and sunrise arccosine argument
in [−1,1] (so the Go code computes real sunrise/sunset values),
`PeakSolarHours` lies in the interval `[0, 38·(1 + 0.14·alt)]`.  The
claimed interval [0,24] fails for large altitudes (see the
counterexample at altitude 10^6 km). -/
theorem peakSolarHours_range (day : ℤ) (loc : Location)
    (hday1 : 0 ≤ day) (hday2 : day < 365)
    (hlat1 : -90 ≤ loc.Lat) (hlat2 : loc.Lat ≤ 90)
    (hlon1 : -180 ≤ loc.Lon) (hlon2 : loc.Lon ≤ 180)
    (halt : 0 ≤ loc.Alt)
    (hb1 : -1 ≤ (-Real.sin (loc.Lat * DegToRad) * Real.sin (Declination day)) /
        (Real.cos (loc.Lat * DegToRad) * Real.cos (Declination day)))
    (hb2 : (-Real.sin (loc.Lat * DegToRad) * Real.sin (Declination day)) /
        (Real.cos (loc.Lat * DegToRad) * Real.cos (Declination day)) ≤ 1) :
    0 ≤ PeakSolarHours day loc ∧
      PeakSolarHours day loc ≤ 38 * (1 + 0.14 * loc.Alt) := by
  have hpi2 : Real.pi < 3.141593 := Real.pi_lt_d6
  have hpi := Real.pi_pos
  have hK : (0 : ℝ) ≤ 1.1 * (1.353 * (1 + 0.14 * loc.Alt)) := by nlinarith
  have haux := psh_bounds_aux day loc
    (Real.arccos ((-Real.sin (loc.Lat * DegToRad) * Real.sin (Declination day)) /
        (Real.cos (loc.Lat * DegToRad) * Real.cos (Declination day))))
    (1.1 * (1.353 * (1 + 0.14 * loc.Alt)))
    (Real.arccos_nonneg _) (Real.arccos_le_pi _)
    (sunrise_eq_arccos day loc) (sunset_eq_arccos day loc)
    hK (fun t => IG_le t day loc halt) (fun t => IG_nonneg t day loc halt)
  refine ⟨haux.1, le_trans haux.2 ?_⟩
  rw [div_le_iff (by norm_num : (0:ℝ) < 60)]
  nlinarith [mul_le_mul_of_nonneg_right
    (show 480 * Real.pi + 1 ≤ 1508.97 by nlinarith) hK]

/-- Witness for the amended C6 at day 0, equatorial Greenwich, sea
level. -/
theorem peakSolarHours_range_witness :
    ((0 : ℤ) ≤ 0 ∧ (0 : ℤ) < 365 ∧ (-90 : ℝ) ≤ (locA 0).Lat ∧
      (locA 0).Lat ≤ 90 ∧ (-180 : ℝ) ≤ (locA 0).Lon ∧ (locA 0).Lon ≤ 180 ∧
      (0 : ℝ) ≤ (locA 0).Alt ∧
      -1 ≤ (-Real.sin ((locA 0).Lat * DegToRad) * Real.sin (Declination 0)) /
          (Real.cos ((locA 0).Lat * DegToRad) * Real.cos (Declination 0)) ∧
      (-Real.sin ((locA 0).Lat * DegToRad) * Real.sin (Declination 0)) /
          (Real.cos ((locA 0).Lat * DegToRad) * Real.cos (Declination 0)) ≤ 1) ∧
    0 ≤ PeakSolarHours 0 (locA 0) ∧
      PeakSolarHours 0 (locA 0) ≤ 38 * (1 + 0.14 * (locA 0).Alt) := by
  have hb0 : (-Real.sin ((locA 0).Lat * DegToRad) * Real.sin (Declination 0)) /
      (Real.cos ((locA 0).Lat * DegToRad) * Real.cos (Declination 0)) = 0 := by
    simp [locA]
  have hb1 : -1 ≤ (-Real.sin ((locA 0).Lat * DegToRad) * Real.sin (Declination 0)) /
      (Real.cos ((locA 0).Lat * DegToRad) * Real.cos (Declination 0)) := by
    rw [hb0]
    norm_num
  have hb2 : (-Real.sin ((locA 0).Lat * DegToRad) * Real.sin (Declination 0)) /
      (Real.cos ((locA 0).Lat * DegToRad) * Real.cos (Declination 0)) ≤ 1 := by
    rw [hb0]
    norm_num
  have h := peakSolarHours_range 0 (locA 0) le_rfl (by norm_num)
    (by norm_num [locA]) (by norm_num [locA]) (by norm_num [locA])
    (by norm_num [locA]) (by norm_num [locA]) hb1 hb2
  exact ⟨⟨le_rfl, by norm_num, by norm_num [locA], by norm_num [locA],
    by norm_num [locA], by norm_num [locA], by norm_num [locA], hb1, hb2⟩,
    h.1, h.2⟩

/-! ### Claim C1: the sunrise-offset bug in PeakSolarHours -/

set_option maxHeartbeats 1600000 in
/-- On day 81 at equatorial Greenwich, every sample between 600 and 685
minutes is well inside the sunlit window and contributes at least 0.72
to the sum. -/
lemma ig_600_685 (t : ℤ) (h1 : 600 ≤ t) (h2 : t ≤ 685) :
    (0.72 : ℝ) ≤ IG t 81 (locA 0) := by
  have hpi1 : 3.141592 < Real.pi := Real.pi_gt_d6
  have hpi2 : Real.pi < 3.141593 := Real.pi_lt_d6
  have hpi := Real.pi_pos
  have ht1 : (600 : ℝ) ≤ (t : ℝ) := by exact_mod_cast h1
  have ht2 : (t : ℝ) ≤ 685 := by exact_mod_cast h2
  have hz : Zenith t 81 (locA 0) = Real.pi / 720 * (720.1255 - (t : ℝ)) := by
    rw [zenith_81_locA 0 t (by omega) (by omega)]
    rw [abs_of_nonpos (by linarith)]
    ring
  have hθ_lo : 0 < Zenith t 81 (locA 0) := by
    rw [hz]
    have hpos : (0 : ℝ) < 720.1255 - (t : ℝ) := by linarith
    positivity
  have hθ_hi : Zenith t 81 (locA 0) ≤ 0.525 := by
    rw [hz]
    nlinarith
  have hcos : (0.862 : ℝ) ≤ Real.cos (Zenith t 81 (locA 0)) := by
    have hb := Real.one_sub_sq_div_two_le_cos (x := Zenith t 81 (locA 0))
    nlinarith [mul_le_mul hθ_hi hθ_hi hθ_lo.le (by norm_num : (0:ℝ) ≤ 0.525)]
  have hx_nonneg : 0 ≤ DegToRad * 96.07995 - Zenith t 81 (locA 0) := by
    rw [hz]
    unfold DegToRad
    nlinarith [mul_nonneg hpi.le (show (0:ℝ) ≤ (t:ℝ) - 335.8057 by linarith)]
  have hterm_nonneg : 0 ≤ DegToRad * 0.50572 *
      (DegToRad * 96.07995 - Zenith t 81 (locA 0)) ^ (DegToRad * (-1.6364)) :=
    mul_nonneg (by have := degToRad_pos; nlinarith)
      (Real.rpow_nonneg hx_nonneg _)
  have ham_eq := AM_of_x_nonneg t 81 (locA 0) hx_nonneg
  have hd_pos : 0 < Real.cos (Zenith t 81 (locA 0)) + DegToRad * 0.50572 *
      (DegToRad * 96.07995 - Zenith t 81 (locA 0)) ^ (DegToRad * (-1.6364)) := by
    linarith
  have ham_pos : 0 < AM t 81 (locA 0) := by
    rw [ham_eq]
    exact div_pos (by norm_num) hd_pos
  have ham_hi : AM t 81 (locA 0) ≤ 1.161 := by
    rw [ham_eq, div_le_iff hd_pos]
    nlinarith
  have hY_hi : AM t 81 (locA 0) ^ ((0.678 : ℝ)) ≤ 2 := by
    have ha1 : AM t 81 (locA 0) ^ ((0.678 : ℝ)) ≤ (1.161 : ℝ) ^ ((0.678 : ℝ)) :=
      Real.rpow_le_rpow ham_pos.le ham_hi (by norm_num)
    have ha2 : (1.161 : ℝ) ^ ((0.678 : ℝ)) ≤ (1.161 : ℝ) ^ ((1 : ℝ)) :=
      Real.rpow_le_rpow_of_exponent_le (by norm_num) (by norm_num)
    rw [Real.rpow_one] at ha2
    linarith
  have hp_lo : (0.49 : ℝ) ≤ (0.7 : ℝ) ^ (AM t 81 (locA 0) ^ ((0.678 : ℝ))) := by
    have hc1 : (0.7 : ℝ) ^ ((2 : ℝ)) ≤ (0.7 : ℝ) ^ (AM t 81 (locA 0) ^ ((0.678 : ℝ))) :=
      Real.rpow_le_rpow_of_exponent_ge (by norm_num) (by norm_num) hY_hi
    have hc2 : (0.7 : ℝ) ^ ((2 : ℝ)) = 0.49 := by
      rw [show ((2 : ℝ)) = ((2 : ℕ) : ℝ) by norm_num, Real.rpow_natCast]
      norm_num
    linarith
  unfold IG
  rw [ID_of_am_pos _ _ _ ham_pos]
  have hAlt : (locA (0 : ℝ)).Alt = 0 := rfl
  rw [hAlt]
  nlinarith

/-- On day 81 at equatorial Greenwich, every sample from minute 1106 on
is below the air-mass horizon guard, so `IG` vanishes there. -/
lemma ig_dark_81 (t : ℤ) (h1 : 1106 ≤ t) (h2 : t ≤ 1438) :
    IG t 81 (locA 0) = 0 := by
  have hpi := Real.pi_pos
  have ht1 : (1106 : ℝ) ≤ (t : ℝ) := by exact_mod_cast h1
  apply IG_eq_zero_of_zenith_gt
  rw [zenith_81_locA 0 t (by omega) (by omega)]
  rw [abs_of_nonneg (by linarith)]
  unfold DegToRad
  nlinarith [mul_pos hpi (show (0:ℝ) < (t:ℝ) - 1104.4453 by linarith)]

lemma ig_le_locA0 (t : ℤ) : IG t 81 (locA 0) ≤ 1.4883 := by
  have h := IG_le t 81 (locA 0) (by norm_num [locA])
  have hAlt : (locA (0 : ℝ)).Alt = 0 := rfl
  rw [hAlt] at h
  linarith

set_option maxHeartbeats 800000 in
/-- Claim C1 is false on the code (the off-by-sunrise bug §9 of the
spec flags): at day 81, equatorial Greenwich, sea level, the code's sum
(samples at `sr + i` for `i ∈ [sr, ss)`, i.e. times 686..1438) is
strictly smaller than the canonical spec sum (samples at the times
`sr..ss−1` = 343..1095): the code loses the 257 bright morning samples
343..599 and 600..685 and gains only near-horizon or dark evening
samples 1096..1438. -/
theorem peakSolarHours_window_offset_bug :
    PeakSolarHours 81 (locA 0) < PeakSolarHoursSpec 81 (locA 0) := by
  have halt : (0 : ℝ) ≤ (locA (0 : ℝ)).Alt := by norm_num [locA]
  simp only [PeakSolarHours, PeakSolarHoursSpec]
  rw [goInt_sunrise_81_locA, goInt_sunset_81_locA]
  have hmap : ∑ i ∈ Finset.Ico (343 : ℤ) 1096, IG (343 + i) 81 (locA 0) =
      ∑ j ∈ Finset.Ico (686 : ℤ) 1439, IG j 81 (locA 0) := by
    rw [show (686 : ℤ) = 343 + 343 from by norm_num,
      show (1439 : ℤ) = 343 + 1096 from by norm_num,
      ← Finset.map_add_left_Ico, Finset.sum_map]
    apply Finset.sum_congr rfl
    intro x _
    simp [addLeftEmbedding_apply]
  rw [hmap]
  have hs1 : ∑ i ∈ Finset.Ico (343 : ℤ) 1096, IG i 81 (locA 0) =
      (∑ i ∈ Finset.Ico (343 : ℤ) 600, IG i 81 (locA 0)) +
      ∑ i ∈ Finset.Ico (600 : ℤ) 1096, IG i 81 (locA 0) :=
    sum_Ico_split _ (by norm_num) (by norm_num)
  have hs2 : ∑ i ∈ Finset.Ico (600 : ℤ) 1096, IG i 81 (locA 0) =
      (∑ i ∈ Finset.Ico (600 : ℤ) 686, IG i 81 (locA 0)) +
      ∑ i ∈ Finset.Ico (686 : ℤ) 1096, IG i 81 (locA 0) :=
    sum_Ico_split _ (by norm_num) (by norm_num)
  have hc1 : ∑ j ∈ Finset.Ico (686 : ℤ) 1439, IG j 81 (locA 0) =
      (∑ i ∈ Finset.Ico (686 : ℤ) 1096, IG i 81 (locA 0)) +
      ∑ i ∈ Finset.Ico (1096 : ℤ) 1439, IG i 81 (locA 0) :=
    sum_Ico_split _ (by norm_num) (by norm_num)
  have hc2 : ∑ i ∈ Finset.Ico (1096 : ℤ) 1439, IG i 81 (locA 0) =
      (∑ i ∈ Finset.Ico (1096 : ℤ) 1106, IG i 81 (locA 0)) +
      ∑ i ∈ Finset.Ico (1106 : ℤ) 1439, IG i 81 (locA 0) :=
    sum_Ico_split _ (by norm_num) (by norm_num)
  have hA : 0 ≤ ∑ i ∈ Finset.Ico (343 : ℤ) 600, IG i 81 (locA 0) :=
    Finset.sum_nonneg fun i _ => IG_nonneg i 81 (locA 0) halt
  have hB : (86 : ℝ) * 0.72 ≤ ∑ i ∈ Finset.Ico (600 : ℤ) 686, IG i 81 (locA 0) := by
    have hcard : (Finset.Ico (600 : ℤ) 686).card = 86 := by
      rw [Int.card_Ico]
      decide
    have h := Finset.card_nsmul_le_sum (Finset.Ico (600 : ℤ) 686)
      (fun i => IG i 81 (locA 0)) 0.72
      (fun i hi => ig_600_685 i (Finset.mem_Ico.mp hi).1
        (by have := (Finset.mem_Ico.mp hi).2; omega))
    rw [hcard, nsmul_eq_mul] at h
    exact_mod_cast h
  have hD : ∑ i ∈ Finset.Ico (1096 : ℤ) 1106, IG i 81 (locA 0) ≤
      (10 : ℝ) * 1.4883 := by
    have hcard : (Finset.Ico (1096 : ℤ) 1106).card = 10 := by
      rw [Int.card_Ico]
      decide
    have h := Finset.sum_le_card_nsmul (Finset.Ico (1096 : ℤ) 1106)
      (fun i => IG i 81 (locA 0)) 1.4883 (fun i _ => ig_le_locA0 i)
    rw [hcard, nsmul_eq_mul] at h
    exact_mod_cast h
  have hE : ∑ i ∈ Finset.Ico (1106 : ℤ) 1439, IG i 81 (locA 0) = 0 :=
    Finset.sum_eq_zero fun i hi => ig_dark_81 i (Finset.mem_Ico.mp hi).1
      (by have := (Finset.mem_Ico.mp hi).2; omega)
  rw [hc1, hc2, hE, hs1, hs2]
  linarith

end GoSolar
